import Mathlib

/-!
Shallow embedding of `src/Unidad_2/work/batch_generator.py`: a single-shot
batch utility that generates synthetic user-activity records, writes them to
a CSV file, appends a `unique_id` column, and (in "next" mode) overwrites the
`accessed_at` column with a single timestamp.

Modelling conventions:
* Python strings are lists of characters (`Str`).
* Randomness is explicit: each call to `random.randint` / `uuid.uuid4` /
  Faker consumes a value from an explicitly passed source, so every function
  is pure and the random draws are parameters.
* The CSV file is a header row plus data rows of typed cells; CSV
  serialization mechanics (quoting, encoding) are out of scope, so reading
  back the file yields the cells that were written.
* Naive datetimes are a count of seconds on the naive timeline plus a
  microsecond component, as in Python `datetime` / `timedelta` arithmetic.
-/

namespace BatchGenerator

/-- Python strings, modelled as lists of characters. -/
abbrev Str := List Char

/-- Python `s.replace(pat, rep)` for a one-character pattern `pat`: every
occurrence of `pat` in `s` is replaced by `rep`. -/
def replaceAll (pat : Char) (rep : Str) : Str → Str
  | [] => []
  | c :: cs => if c = pat then rep ++ replaceAll pat rep cs else c :: replaceAll pat rep cs

/-- Python `s.lower()`, modelled character-wise with `Char.toLower`. -/
def lowerStr (s : Str) : Str := s.map Char.toLower

/-- A naive Python `datetime`: seconds on the naive timeline plus a
microsecond component. -/
structure DateTime where
  sec : Int
  micro : Nat
deriving DecidableEq

/-- Python `dt.replace(microsecond=0)`: truncate to whole seconds. -/
def truncMicro (d : DateTime) : DateTime := ⟨d.sec, 0⟩

/-- Python `dt - timedelta(days=1)`: one day is 86400 seconds on the naive
timeline. -/
def subOneDay (d : DateTime) : DateTime := ⟨d.sec - 86400, d.micro⟩

/-- Strict chronological order on naive datetimes. -/
def dtLt (a b : DateTime) : Prop :=
  a.sec < b.sec ∨ (a.sec = b.sec ∧ a.micro < b.micro)

/-- Python `random.randint(lo, hi)`: a uniform integer in `[lo, hi]`
(both ends included). The raw draw `r` from the random source is reduced
into the range; every residue is reachable, so the model has full support
on `[lo, hi]` when `lo ≤ hi`. -/
def randint (lo hi : Int) (r : Nat) : Int :=
  lo + ((r % (hi + 1 - lo).toNat : Nat) : Int)

/-- One CSV cell. `generate_record` produces strings, integers and a
datetime; the post-processing passes write datetime cells back. -/
inductive Cell where
  | str : Str → Cell
  | int : Int → Cell
  | dt : DateTime → Cell
deriving DecidableEq

/-- One record's worth of draws from the localized Faker instance and from
`random`: each field is the value returned by the corresponding library
call inside `generate_record`. -/
structure FakeDraw where
  name : Str
  free_email_domain : Str
  ssn : Str
  date_of_birth : Str
  address : Str
  phone_number : Str
  mac_address : Str
  ipv4 : Str
  iban : Str
  date_time_between : DateTime
  rand_session : Nat
  rand_download : Nat
  rand_upload : Nat
  rand_traffic : Nat

/-- The 15-field record returned by `generate_record`, in source order. -/
structure Record where
  person_name : Str
  user_name : Str
  email : Str
  personal_number : Str
  birth_date : Str
  address : Str
  phone_number : Str
  mac_address : Str
  ip_address : Str
  iban : Str
  accessed_at : DateTime
  session_duration : Int
  download_speed : Int
  upload_speed : Int
  consumed_traffic : Int

/-- `generate_record(fake)`: build one synthetic record from the draws.
Mirrors the source line by line: `user_name` is `person_name` with spaces
removed then lowercased, `email` is `f"{user_name}@{fake.free_email_domain()}"`,
`address` has newlines replaced by `", "`, and the four numeric fields come
from `random.randint` with the source's bounds. -/
def generate_record (fake : FakeDraw) : Record :=
  let person_name := fake.name
  let user_name := lowerStr (replaceAll ' ' [] person_name)
  let email := user_name ++ '@' :: fake.free_email_domain
  let personal_number := fake.ssn
  let birth_date := fake.date_of_birth
  let address := replaceAll '\n' (", ".toList) fake.address
  let phone_number := fake.phone_number
  let mac_address := fake.mac_address
  let ip_address := fake.ipv4
  let iban := fake.iban
  let accessed_at := fake.date_time_between
  let session_duration := randint 0 36000 fake.rand_session
  let download_speed := randint 0 1000 fake.rand_download
  let upload_speed := randint 0 800 fake.rand_upload
  let consumed_traffic := randint 0 2000000 fake.rand_traffic
  ⟨person_name, user_name, email, personal_number, birth_date, address,
   phone_number, mac_address, ip_address, iban, accessed_at,
   session_duration, download_speed, upload_speed, consumed_traffic⟩

/-- The list `generate_record` returns in the source, as a CSV data row. -/
def Record.toRow (r : Record) : List Cell :=
  [.str r.person_name, .str r.user_name, .str r.email, .str r.personal_number,
   .str r.birth_date, .str r.address, .str r.phone_number, .str r.mac_address,
   .str r.ip_address, .str r.iban, .dt r.accessed_at,
   .int r.session_duration, .int r.download_speed, .int r.upload_speed,
   .int r.consumed_traffic]

/-- The CSV file content: one header row and the data rows, in order. -/
structure CSV where
  header : List Cell
  rows : List (List Cell)
deriving DecidableEq

/-- The `headers` list of `write_to_csv`, verbatim from the source. -/
def headers : List Cell :=
  [.str ("person_name".toList), .str ("user_name".toList), .str ("email".toList),
   .str ("personal_number".toList), .str ("birth_date".toList),
   .str ("address".toList), .str ("phone".toList), .str ("mac_address".toList),
   .str ("ip_address".toList), .str ("iban".toList), .str ("accessed_at".toList),
   .str ("session_duration".toList), .str ("download_speed".toList),
   .str ("upload_speed".toList), .str ("consumed_traffic".toList)]

/-- `write_to_csv(file_path, rows)`: write the header row, then `rows`
generated records. Directory creation and the file handle are out of scope;
the function returns the file content it writes. `draws i` is the fake data
the single Faker instance produces for the i-th row. -/
def write_to_csv (rows : Nat) (draws : Nat → FakeDraw) : CSV :=
  { header := headers,
    rows := (List.range rows).map fun i => (generate_record (draws i)).toRow }

/-- `add_id(file_name)`: read the file, generate one `str(uuid.uuid4())` per
data row, and add them as a new trailing column named `unique_id`
(`df.with_columns(pl.Series("unique_id", uuid_list))` on a frame without
that column appends it on the right). `uuidGen i` is the i-th generated
identifier string. -/
def add_id (uuidGen : Nat → Str) (file : CSV) : CSV :=
  let uuid_list := (List.range file.rows.length).map uuidGen
  { header := file.header ++ [.str ("unique_id".toList)],
    rows := List.zipWith (fun row u => row ++ [Cell.str u]) file.rows uuid_list }

/-- Polars `df.with_columns(pl.lit(v).alias(colName))`: if a column with
that name exists, every row's cell in that column is replaced by `v` (the
literal broadcasts); otherwise the column is appended on the right. -/
def setColumnTo (file : CSV) (colName : Str) (v : Cell) : CSV :=
  match file.header.findIdx? (fun c => c == Cell.str colName) with
  | some i => { file with rows := file.rows.map fun row => row.set i v }
  | none => { header := file.header ++ [Cell.str colName],
              rows := file.rows.map fun row => row ++ [v] }

/-- `update_datetime(file_name, run)`: in "next" mode, take the clock
reading `now`, truncate it to whole seconds, subtract one day, and overwrite
the `accessed_at` column of every row with that single value; in any other
mode, do nothing (the file is not even read). -/
def update_datetime (run : String) (now : DateTime) (file : CSV) : CSV :=
  if run = "next" then
    let current_time := truncMicro now
    let yesterday_time := subOneDay current_time
    setColumnTo file ("accessed_at".toList) (Cell.dt yesterday_time)
  else
    file

/-- The `__main__` block's branch on the current date: on "2025-09-22" the
row count is `random.randint(300_372, 300_372)` and the mode is "first";
otherwise the row count is `random.randint(0, 1_101)` and the mode is
"next". `today` is `str(date.today())` and `r` the raw random draw. -/
def run_controller (today : String) (r : Nat) : Int × String :=
  if today = "2025-09-22" then (randint 300372 300372 r, "first")
  else (randint 0 1101 r, "next")

/-- The `__main__` pipeline after the branch: `write_to_csv`, then
`add_id`, then `update_datetime`, in that order, on the same file. -/
def run_pipeline (rows : Nat) (run : String) (draws : Nat → FakeDraw)
    (uuidGen : Nat → Str) (now : DateTime) : CSV :=
  update_datetime run now (add_id uuidGen (write_to_csv rows draws))

/-! ### Helper lemmas -/

/-- `randint lo hi r` lies in `[lo, hi]` whenever `lo ≤ hi`. -/
theorem randint_mem (lo hi : Int) (r : Nat) (h : lo ≤ hi) :
    lo ≤ randint lo hi r ∧ randint lo hi r ≤ hi := by
  unfold randint
  have hnpos : 0 < (hi + 1 - lo).toNat := by omega
  have hmod : r % (hi + 1 - lo).toNat < (hi + 1 - lo).toNat := Nat.mod_lt _ hnpos
  omega

/-- Every value of `[lo, hi]` is hit by some draw: `randint` has full
support on the range. -/
theorem randint_surj (lo hi v : Int) (h1 : lo ≤ v) (h2 : v ≤ hi) :
    ∃ r : Nat, randint lo hi r = v := by
  refine ⟨(v - lo).toNat, ?_⟩
  unfold randint
  have hlt : (v - lo).toNat < (hi + 1 - lo).toNat := by omega
  rw [Nat.mod_eq_of_lt hlt]
  omega

/-- Removing spaces with `replaceAll` leaves no space character behind. -/
theorem space_not_mem_replaceAll (s : Str) : ' ' ∉ replaceAll ' ' [] s := by
  induction s with
  | nil => simp [replaceAll]
  | cons c cs ih =>
    by_cases hc : c = ' '
    · simpa [replaceAll, hc] using ih
    · simp only [replaceAll, if_neg hc, List.mem_cons]
      rintro (h | h)
      · exact hc h.symm
      · exact ih h

/-- `Char.toLower` never produces a space from a non-space character. -/
theorem toLower_eq_space (c : Char) (h : c.toLower = ' ') : c = ' ' := by
  simp only [Char.toLower] at h
  by_cases hcond : c.toNat ≥ 65 ∧ c.toNat ≤ 90
  · rw [if_pos hcond] at h
    obtain ⟨n, hn⟩ : ∃ n, c.toNat = n := ⟨_, rfl⟩
    rw [hn] at hcond h
    have h1 : 65 ≤ n := hcond.1
    have h2 : n ≤ 90 := hcond.2
    interval_cases n <;> exact absurd h (by decide)
  · rwa [if_neg hcond] at h

/-- `zipWith` against a range-indexed list, read positionally. -/
theorem zipWith_range_map_getElem? {α β γ : Type} (f : α → β → γ) :
    ∀ (l : List α) (g : Nat → β) (j : Nat),
      (List.zipWith f l ((List.range l.length).map g))[j]? =
        (l[j]?).map fun x => f x (g j) := by
  intro l
  induction l with
  | nil => intro g j; simp
  | cons x xs ih =>
    intro g j
    rw [List.length_cons, List.range_succ_eq_map, List.map_cons, List.map_map,
      List.zipWith_cons_cons]
    cases j with
    | zero => simp
    | succ j =>
      simp only [List.getElem?_cons_succ]
      exact ih (fun i => g (Nat.succ i)) j

/-- A concrete draw used to evaluate the theorems on explicit inputs. -/
def sampleDraw : FakeDraw :=
  ⟨[], [], [], [], [], [], [], [], [], ⟨0, 0⟩, 0, 0, 0, 0⟩

/-- A concrete one-row file with the generator's header, used to evaluate
the timestamp-pass theorem on an explicit input. -/
def sampleFile : CSV :=
  { header := headers,
    rows := [[.str [], .str [], .str [], .str [], .str [], .str [], .str [],
              .str [], .str [], .str [], .dt ⟨0, 0⟩, .int 1, .int 2, .int 3,
              .int 4]] }

/-! ### Claim theorems -/

/-- C3: for every generated record, `user_name` equals `person_name` with
space characters removed and lowercased (hence contains no spaces and is a
deterministic function of `person_name`), and `email` equals `user_name`
followed by "@" and a domain, so `email` starts with `user_name` + "@". -/
theorem user_name_email_derivation (fake : FakeDraw) :
    (generate_record fake).user_name
        = lowerStr (replaceAll ' ' [] (generate_record fake).person_name)
    ∧ ' ' ∉ (generate_record fake).user_name
    ∧ (generate_record fake).email
        = (generate_record fake).user_name ++ '@' :: fake.free_email_domain
    ∧ ∃ rest : Str, (generate_record fake).email
        = ((generate_record fake).user_name ++ [ '@' ]) ++ rest := by
  refine ⟨rfl, ?_, rfl, fake.free_email_domain, ?_⟩
  · intro hmem
    have hex : ∃ c ∈ replaceAll ' ' [] fake.name, Char.toLower c = ' ' := by
      simpa [generate_record, lowerStr, List.mem_map] using hmem
    obtain ⟨c, hc, hlc⟩ := hex
    rw [toLower_eq_space c hlc] at hc
    exact space_not_mem_replaceAll _ hc
  · show lowerStr (replaceAll ' ' [] fake.name) ++ '@' :: fake.free_email_domain
        = (lowerStr (replaceAll ' ' [] fake.name) ++ [ '@' ]) ++ fake.free_email_domain
    simp

/-- C6: for every generated record, the four numeric fields are integers in
their inclusive ranges: session_duration in [0, 36000], download_speed in
[0, 1000], upload_speed in [0, 800], consumed_traffic in [0, 2000000]. -/
theorem numeric_field_ranges (fake : FakeDraw) :
    (0 ≤ (generate_record fake).session_duration
      ∧ (generate_record fake).session_duration ≤ 36000)
    ∧ (0 ≤ (generate_record fake).download_speed
      ∧ (generate_record fake).download_speed ≤ 1000)
    ∧ (0 ≤ (generate_record fake).upload_speed
      ∧ (generate_record fake).upload_speed ≤ 800)
    ∧ (0 ≤ (generate_record fake).consumed_traffic
      ∧ (generate_record fake).consumed_traffic ≤ 2000000) := by
  exact ⟨randint_mem 0 36000 fake.rand_session (by norm_num),
         randint_mem 0 1000 fake.rand_download (by norm_num),
         randint_mem 0 800 fake.rand_upload (by norm_num),
         randint_mem 0 2000000 fake.rand_traffic (by norm_num)⟩

/-- C7: running the timestamp pass in mode "first" is a no-op: the file is
unchanged. -/
theorem first_mode_timestamp_noop (now : DateTime) (file : CSV) :
    update_datetime "first" now file = file := by
  simp [update_datetime]

/-- C9: for every run-mode string other than "next" — not only "first" —
the timestamp pass leaves the file unchanged, and an unknown mode is not
an error. -/
theorem non_next_mode_noop (run : String) (now : DateTime) (file : CSV)
    (h : run ≠ "next") : update_datetime run now file = file := by
  simp [update_datetime, h]

/-- Evaluation of `non_next_mode_noop` at a concrete unknown mode. -/
theorem non_next_mode_noop_check :
    update_datetime "other" ⟨86400, 123⟩ ⟨headers, []⟩ = ⟨headers, []⟩ :=
  non_next_mode_noop "other" ⟨86400, 123⟩ ⟨headers, []⟩ (by decide)

/-- C5: the run controller uses the fixed constant 300372 and mode "first"
exactly on the designated date "2025-09-22"; on any other date the count is
a uniform integer in [0, 1101] (every value in the range is reachable) and
the mode is "next". -/
theorem run_controller_policy (today : String) (r : Nat) :
    (today = "2025-09-22" → run_controller today r = (300372, "first"))
    ∧ (today ≠ "2025-09-22" →
        (run_controller today r).2 = "next"
        ∧ 0 ≤ (run_controller today r).1
        ∧ (run_controller today r).1 ≤ 1101
        ∧ ∀ v : Int, 0 ≤ v → v ≤ 1101 →
            ∃ r2 : Nat, run_controller today r2 = (v, "next")) := by
  have hconst : ∀ s : Nat, randint 300372 300372 s = 300372 := by
    intro s
    unfold randint
    norm_num
  constructor
  · intro h
    simp only [run_controller, if_pos h, hconst]
  · intro h
    simp only [run_controller, if_neg h]
    refine ⟨trivial, (randint_mem 0 1101 r (by norm_num)).1,
            (randint_mem 0 1101 r (by norm_num)).2, ?_⟩
    intro v hv0 hv1
    obtain ⟨r2, hr2⟩ := randint_surj 0 1101 v hv0 hv1
    exact ⟨r2, by rw [hr2]⟩

/-- Evaluation of `run_controller_policy` on both branches at concrete
dates. -/
theorem run_controller_policy_check :
    run_controller "2025-09-22" 7 = (300372, "first")
    ∧ (run_controller "2025-10-12" 7).2 = "next" :=
  ⟨(run_controller_policy "2025-09-22" 7).1 rfl,
   ((run_controller_policy "2025-10-12" 7).2 (by decide)).1⟩

/-- C4: the Batch Writer emits exactly one fixed 15-name header row
followed by exactly N data rows of 15 fields each; N = 0 yields exactly the
header row. -/
theorem write_to_csv_shape (n : Nat) (draws : Nat → FakeDraw) :
    (write_to_csv n draws).header = headers
    ∧ (write_to_csv n draws).header.length = 15
    ∧ (write_to_csv n draws).rows.length = n
    ∧ (∀ row ∈ (write_to_csv n draws).rows, row.length = 15)
    ∧ (n = 0 → write_to_csv n draws = { header := headers, rows := [] }) := by
  refine ⟨rfl, rfl, ?_, ?_, ?_⟩
  · simp [write_to_csv]
  · intro row hrow
    simp only [write_to_csv, List.mem_map] at hrow
    obtain ⟨i, _, hi⟩ := hrow
    rw [← hi]
    rfl
  · rintro rfl
    rfl

/-- Evaluation of `write_to_csv_shape` at N = 0. -/
theorem write_to_csv_shape_check :
    write_to_csv 0 (fun _ => sampleDraw) = { header := headers, rows := [] } :=
  (write_to_csv_shape 0 (fun _ => sampleDraw)).2.2.2.2 rfl

/-- C2: the tag pass appends exactly one identifier per row as a new
trailing column named `unique_id`; the identifier of row j is `uuidGen j`,
independent of the row's content; row count, row order and all other
column values are preserved exactly. -/
theorem add_id_shape (uuidGen : Nat → Str) (file : CSV) :
    (add_id uuidGen file).header = file.header ++ [Cell.str ("unique_id".toList)]
    ∧ (add_id uuidGen file).rows.length = file.rows.length
    ∧ ∀ j : Nat, (add_id uuidGen file).rows[j]? =
        (file.rows[j]?).map fun row => row ++ [Cell.str (uuidGen j)] := by
  refine ⟨rfl, ?_, ?_⟩
  · simp [add_id]
  · intro j
    simp only [add_id]
    exact zipWith_range_map_getElem? _ file.rows uuidGen j

/-- C1: in mode "next" the timestamp pass overwrites the `accessed_at`
column (the column at the header position of "accessed_at") of every row
with the single value (clock reading truncated to whole seconds) minus one
day, leaving the header, the row count, the row order and every other
column unchanged. -/
theorem next_mode_timestamp_update (now : DateTime) (file : CSV) (i : Nat)
    (h : file.header.findIdx? (fun c => c == Cell.str ("accessed_at".toList))
          = some i) :
    (update_datetime "next" now file).header = file.header
    ∧ (update_datetime "next" now file).rows.length = file.rows.length
    ∧ (∀ j k : Nat, k ≠ i →
        ((update_datetime "next" now file).rows[j]?.bind fun row => row[k]?)
          = (file.rows[j]?.bind fun row => row[k]?))
    ∧ (∀ j : Nat, ∀ row : List Cell, file.rows[j]? = some row → i < row.length →
        ((update_datetime "next" now file).rows[j]?.bind fun row2 => row2[i]?)
          = some (Cell.dt ⟨now.sec - 86400, 0⟩)) := by
  have hu : update_datetime "next" now file =
      { header := file.header,
        rows := file.rows.map fun row =>
          row.set i (Cell.dt ⟨now.sec - 86400, 0⟩) } := by
    rw [update_datetime, if_pos rfl]
    simp only [setColumnTo, truncMicro, subOneDay, h]
  refine ⟨by rw [hu], by rw [hu]; simp, ?_, ?_⟩
  · intro j k hk
    rw [hu]
    simp only [List.getElem?_map]
    cases hj : file.rows[j]? with
    | none => rfl
    | some row =>
      simp only [Option.map_some, Option.some_bind]
      exact List.getElem?_set_ne (Ne.symm hk)
  · intro j row hj hlen
    rw [hu]
    simp only [List.getElem?_map, hj, Option.map_some, Option.some_bind]
    exact List.getElem?_set_self hlen

/-- Evaluation of `next_mode_timestamp_update` on a concrete one-row
file: the cell in the `accessed_at` column (position 10) becomes the clock
reading minus one day. -/
theorem next_mode_timestamp_update_check :
    ((update_datetime "next" ⟨100000, 42⟩ sampleFile).rows[0]?.bind
        fun row2 => row2[10]?)
      = some (Cell.dt ⟨100000 - 86400, 0⟩) :=
  (next_mode_timestamp_update ⟨100000, 42⟩ sampleFile 10
      (by decide)).2.2.2 0 _ rfl (by decide)

/-- Length of a generated data row with the appended identifier, after the
timestamp overwrite. -/
theorem set_row_length (r : Record) (u : Str) (v : Cell) :
    ((Record.toRow r ++ [Cell.str u]).set 10 v).length = 16 := rfl

/-- The overwritten cell of a generated data row with the appended
identifier sits at position 10. -/
theorem set_row_at10 (r : Record) (u : Str) (v : Cell) :
    ((Record.toRow r ++ [Cell.str u]).set 10 v)[10]? = some v := rfl

/-- C8: an end-to-end run with N = 3 in mode "next" (Batch Writer, tag
pass, timestamp pass, in that order) yields the header of the 15 fields
followed by `unique_id`, exactly 3 data rows of 16 fields, and all rows
share one `accessed_at` value that is exactly one day (86400 seconds, at
second resolution) before the clock reading and strictly earlier than it. -/
theorem end_to_end_next_three (draws : Nat → FakeDraw) (uuidGen : Nat → Str)
    (now : DateTime) :
    (run_pipeline 3 "next" draws uuidGen now).header
        = headers ++ [Cell.str ("unique_id".toList)]
    ∧ (run_pipeline 3 "next" draws uuidGen now).header.length = 16
    ∧ (run_pipeline 3 "next" draws uuidGen now).rows.length = 3
    ∧ (∀ row ∈ (run_pipeline 3 "next" draws uuidGen now).rows, row.length = 16)
    ∧ ∃ t : DateTime,
        (∀ row ∈ (run_pipeline 3 "next" draws uuidGen now).rows,
          row[10]? = some (Cell.dt t))
        ∧ t = ⟨now.sec - 86400, 0⟩
        ∧ (truncMicro now).sec - t.sec = 86400
        ∧ dtLt t now := by
  have hrows : (run_pipeline 3 "next" draws uuidGen now).rows =
      [((Record.toRow (generate_record (draws 0)) ++ [Cell.str (uuidGen 0)]).set
          10 (Cell.dt ⟨now.sec - 86400, 0⟩)),
       ((Record.toRow (generate_record (draws 1)) ++ [Cell.str (uuidGen 1)]).set
          10 (Cell.dt ⟨now.sec - 86400, 0⟩)),
       ((Record.toRow (generate_record (draws 2)) ++ [Cell.str (uuidGen 2)]).set
          10 (Cell.dt ⟨now.sec - 86400, 0⟩))] := rfl
  refine ⟨rfl, rfl, by rw [hrows]; rfl, ?_, ?_⟩
  · intro row hrow
    rw [hrows] at hrow
    simp only [List.mem_cons, List.not_mem_nil, or_false] at hrow
    rcases hrow with hrow | hrow | hrow <;> rw [hrow] <;>
      exact set_row_length _ _ _
  · refine ⟨⟨now.sec - 86400, 0⟩, ?_, rfl, ?_, ?_⟩
    · intro row hrow
      rw [hrows] at hrow
      simp only [List.mem_cons, List.not_mem_nil, or_false] at hrow
      rcases hrow with hrow | hrow | hrow <;> rw [hrow] <;>
        exact set_row_at10 _ _ _
    · show now.sec - (now.sec - 86400) = 86400
      omega
    · refine Or.inl ?_
      show now.sec - 86400 < now.sec
      omega

/-- C10: starting from a header-only file (N = 0, reachable in "next"
mode), the tag pass adds the `unique_id` column with zero identifiers and
the "next" timestamp pass succeeds, yielding a 16-column header and no
data rows. -/
theorem empty_batch_pipeline (draws : Nat → FakeDraw) (uuidGen : Nat → Str)
    (now : DateTime) :
    (run_pipeline 0 "next" draws uuidGen now).header
        = headers ++ [Cell.str ("unique_id".toList)]
    ∧ (run_pipeline 0 "next" draws uuidGen now).header.length = 16
    ∧ (run_pipeline 0 "next" draws uuidGen now).rows = [] :=
  ⟨rfl, rfl, rfl⟩

/-- Evaluation of `user_name_email_derivation` at a concrete draw. -/
theorem user_name_email_derivation_check :
    ' ' ∉ (generate_record sampleDraw).user_name :=
  (user_name_email_derivation sampleDraw).2.1

/-- Evaluation of `numeric_field_ranges` at a concrete draw. -/
theorem numeric_field_ranges_check :
    0 ≤ (generate_record sampleDraw).session_duration
    ∧ (generate_record sampleDraw).session_duration ≤ 36000 :=
  (numeric_field_ranges sampleDraw).1

/-- Evaluation of `first_mode_timestamp_noop` at a concrete file. -/
theorem first_mode_timestamp_noop_check :
    update_datetime "first" ⟨100000, 42⟩ sampleFile = sampleFile :=
  first_mode_timestamp_noop ⟨100000, 42⟩ sampleFile

/-- Evaluation of `add_id_shape` at a concrete file. -/
theorem add_id_shape_check :
    (add_id (fun _ => []) sampleFile).header
      = sampleFile.header ++ [Cell.str ("unique_id".toList)] :=
  (add_id_shape (fun _ => []) sampleFile).1

/-- Evaluation of `end_to_end_next_three` at concrete inputs. -/
theorem end_to_end_next_three_check :
    (run_pipeline 3 "next" (fun _ => sampleDraw) (fun _ => []) ⟨100000, 42⟩).rows.length
      = 3 :=
  (end_to_end_next_three (fun _ => sampleDraw) (fun _ => []) ⟨100000, 42⟩).2.2.1

/-- Evaluation of `empty_batch_pipeline` at concrete inputs. -/
theorem empty_batch_pipeline_check :
    (run_pipeline 0 "next" (fun _ => sampleDraw) (fun _ => []) ⟨100000, 42⟩).rows
      = [] :=
  (empty_batch_pipeline (fun _ => sampleDraw) (fun _ => []) ⟨100000, 42⟩).2.2

end BatchGenerator
